import Mathlib

/-
Shallow embedding of src/src/contexts/AuthContext.tsx (client-side auth
bootstrap for a Telegram WebApp mini-app backed by a Supabase `users` table).

State mutation through React `setState` is modelled as explicit state passing
on an `AuthState` record; `console.log/warn/error` output is modelled as an
append-only `logs` list; the remote Supabase backend is modelled as a `Db`
value (a list of rows plus a fresh-id counter) and each operation also returns
the list of remote calls it issued, so that "no remote call is made" is
statable.  Remote failures (a rejected promise from the Supabase client) are
modelled by boolean outcome parameters: when a call is marked as failing, the
corresponding `throw`-and-`catch` path of the source runs.
-/

/-- The identity descriptor supplied by the host container
(`window.Telegram.WebApp.initDataUnsafe.user`); `id` is required in the
declared TypeScript type, the display fields are optional. -/
structure HostIdentity where
  id : Int
  first_name : Option String
  last_name : Option String
  username : Option String
deriving Repr, DecidableEq

/-- Modelled from the spec: the `User` row type is imported from
`src/lib/supabase.ts`, which is not under src/; its fields are taken from the
spec's UserRecord data model (§3) and from the fields the source reads and
writes (`id`, `telegram_id`, `username`, `first_name`, `last_name`, `points`,
`level`). -/
structure UserRecord where
  id : Int
  telegram_id : Int
  username : Option String
  first_name : Option String
  last_name : Option String
  points : Int
  level : Int
deriving Repr, DecidableEq

/-- The provider's local React state (`user`, `telegramUser`, `loading`),
plus the console output stream. -/
structure AuthState where
  user : Option UserRecord
  telegramUser : Option HostIdentity
  loading : Bool
  logs : List String
deriving Repr, DecidableEq

/-- The initial state of the provider:
`useState<User | null>(null)`, `useState<any>(null)`, `useState(true)`. -/
def initialState : AuthState :=
  { user := none, telegramUser := none, loading := true, logs := [] }

/-- A remote call issued against the Supabase `users` table. -/
inductive RemoteCall where
  | selectByTelegramId : Int → RemoteCall
  | insertUser : Int → RemoteCall
  | selectById : Int → RemoteCall
  | updatePoints : Int → Int → Int → RemoteCall
deriving Repr, DecidableEq

/-- The remote backend's `users` table: its rows and the next id the backend
will assign to an inserted row. -/
structure Db where
  rows : List UserRecord
  nextId : Int
deriving Repr, DecidableEq

/-- `SELECT * WHERE telegram_id = ? LIMIT 1` (`.maybeSingle()`): zero or one
row; with `telegram_id` unique this is the first (only) matching row. -/
def dbLookupTelegram (db : Db) (tid : Int) : Option UserRecord :=
  db.rows.find? (fun r => r.telegram_id == tid)

/-- `SELECT * WHERE id = ?` used by the refresh path (`.single()` errors when
no row matches, which the model expresses by returning `none`). -/
def dbLookupId (db : Db) (i : Int) : Option UserRecord :=
  db.rows.find? (fun r => r.id == i)

/-- `INSERT {telegram_id, username, first_name, last_name, points:0, level:1}`
followed by `.select().single()`: the backend assigns a fresh `id` and returns
the inserted row. -/
def dbInsert (db : Db) (tid : Int) (un fn ln : Option String) :
    UserRecord × Db :=
  let row : UserRecord :=
    { id := db.nextId, telegram_id := tid, username := un, first_name := fn,
      last_name := ln, points := 0, level := 1 }
  (row, { rows := db.rows ++ [row], nextId := db.nextId + 1 })

/-- `fetchOrCreateUser(tgUser)` (source lines 89–121).  `fetchFails` models
the lookup returning `fetchError`, `createFails` models the insert returning
`createError`; either is thrown and caught by the function's own
`try`/`catch`, which only logs — so the function always returns normally, the
prior state (in particular `user` and `loading`) is untouched on the failure
paths, and no exception reaches the caller. -/
def fetchOrCreateUser (fetchFails createFails : Bool) (tgUser : HostIdentity)
    (s : AuthState) (db : Db) : AuthState × Db × List RemoteCall :=
  if fetchFails then
    ({ s with logs := s.logs ++ ["Error fetching/creating user:"] }, db,
      [RemoteCall.selectByTelegramId tgUser.id])
  else
    match dbLookupTelegram db tgUser.id with
    | some existingUser =>
        ({ s with user := some existingUser }, db,
          [RemoteCall.selectByTelegramId tgUser.id])
    | none =>
        if createFails then
          ({ s with logs := s.logs ++ ["Error fetching/creating user:"] }, db,
            [RemoteCall.selectByTelegramId tgUser.id,
             RemoteCall.insertUser tgUser.id])
        else
          let ins := dbInsert db tgUser.id tgUser.username tgUser.first_name
            tgUser.last_name
          ({ s with user := some ins.1 }, ins.2,
            [RemoteCall.selectByTelegramId tgUser.id,
             RemoteCall.insertUser tgUser.id])

/-- The host container global: `window.Telegram?.WebApp` with its embedded
`initDataUnsafe.user` descriptor (the lifecycle calls `ready()`/`expand()`
have no observable effect on the modelled state). -/
structure TelegramWebApp where
  initDataUnsafe_user : Option HostIdentity
deriving Repr, DecidableEq

/-- The ambient environment: whether the host container is present. -/
structure HostEnv where
  telegram : Option TelegramWebApp
deriving Repr, DecidableEq

/-- `initializeAuth()` (source lines 62–87).  The JavaScript truthiness test
`tgUser && tgUser.id` holds exactly when the descriptor is present and its
numeric `id` is nonzero.  Note the source sets `loading` to `false` only on
the no-container, no-identity and exception paths; the successful
identity path delegates to `fetchOrCreateUser` and never clears `loading`. -/
def initializeAuth (env : HostEnv) (fetchFails createFails : Bool)
    (s : AuthState) (db : Db) : AuthState × Db × List RemoteCall :=
  match env.telegram with
  | none =>
      ({ s with
          loading := false,
          logs := s.logs ++ ["Not running in Telegram WebApp environment"] },
        db, [])
  | some tg =>
      match tg.initDataUnsafe_user with
      | some tgUser =>
          if tgUser.id ≠ 0 then
            fetchOrCreateUser fetchFails createFails tgUser
              { s with
                  telegramUser := some tgUser,
                  logs := s.logs ++ ["Telegram user detected:"] } db
          else
            ({ s with
                loading := false,
                logs := s.logs ++ ["No Telegram user data available"] },
              db, [])
      | none =>
          ({ s with
              loading := false,
              logs := s.logs ++ ["No Telegram user data available"] },
            db, [])

/-- `refreshUser()` (source lines 123–138): no-op when `user` is absent;
otherwise re-fetch by backend `id` (`refetchFails` models the query erroring;
`.single()` also errors when no row matches) — on error the `catch` logs and
leaves the prior `user`; on success `setUser(data)` replaces it wholesale. -/
def refreshUser (refetchFails : Bool) (s : AuthState) (db : Db) :
    AuthState × List RemoteCall :=
  match s.user with
  | none => (s, [])
  | some u =>
      if refetchFails then
        ({ s with logs := s.logs ++ ["Error refreshing user:"] },
          [RemoteCall.selectById u.id])
      else
        match dbLookupId db u.id with
        | some data =>
            ({ s with user := some data }, [RemoteCall.selectById u.id])
        | none =>
            ({ s with logs := s.logs ++ ["Error refreshing user:"] },
              [RemoteCall.selectById u.id])

/-- `updateUserPoints(points)` (source lines 140–157): no-op when `user` is
absent; otherwise synchronously set `points := user.points + points` and
`level := Math.floor(newPoints / 100) + 1` on the local record (`Math.floor`
of an exact rational is floor division, `Int.fdiv`), and fire a detached
remote update whose result is discarded (`.then()`), so the local state never
depends on the remote outcome. -/
def updateUserPoints (points : Int) (s : AuthState) :
    AuthState × List RemoteCall :=
  match s.user with
  | none => (s, [])
  | some u =>
      let newPoints := u.points + points
      let newLevel := newPoints.fdiv 100 + 1
      ({ s with user := some { u with points := newPoints, level := newLevel } },
        [RemoteCall.updatePoints u.id newPoints newLevel])

/-- The spec's level invariant: `level == floor(points / 100) + 1`. -/
def levelInvariant (u : UserRecord) : Prop :=
  u.level = u.points.fdiv 100 + 1

instance (u : UserRecord) : Decidable (levelInvariant u) := by
  unfold levelInvariant; infer_instance

/-- `find?` skips a prefix in which nothing matches. -/
theorem find?_append_of_none {α : Type} (p : α → Bool) (l1 l2 : List α)
    (h : l1.find? p = none) : (l1 ++ l2).find? p = l2.find? p := by
  induction l1 with
  | nil => rfl
  | cons a t ih =>
      rw [List.find?_cons] at h
      cases hp : p a with
      | true => rw [hp] at h; exact absurd h (by simp)
      | false =>
          rw [hp] at h
          rw [List.cons_append, List.find?_cons, hp]
          exact ih h

/-- Sample data used by the concrete witnesses: the spec's existing record
`{id: 7, telegram_id: 42, points: 250, level: 3}`. -/
def sampleUser : UserRecord :=
  { id := 7, telegram_id := 42, username := none, first_name := some "Ana",
    last_name := none, points := 250, level := 3 }

/-- A resolved local state holding `sampleUser`. -/
def sampleState : AuthState :=
  { user := some sampleUser, telegramUser := none, loading := false,
    logs := [] }

/-- A backend containing exactly `sampleUser`. -/
def sampleDb : Db := { rows := [sampleUser], nextId := 8 }

/-- An empty backend. -/
def emptyDb : Db := { rows := [], nextId := 1 }

/-- The scenario identity `{id: 42, first_name: "Ana"}`. -/
def anaIdentity : HostIdentity :=
  { id := 42, first_name := some "Ana", last_name := none, username := none }

/-- An environment whose host container supplies `anaIdentity`. -/
def anaEnv : HostEnv :=
  { telegram := some { initDataUnsafe_user := some anaIdentity } }

/-- An environment without the host container. -/
def noHostEnv : HostEnv := { telegram := none }

/-- C2: for every resolved user with points `p` satisfying the level
invariant and every integer delta (negative allowed, no floor at zero),
`updateUserPoints delta` synchronously sets the local user to
`points = p + delta` and `level = floor((p + delta)/100) + 1`, so the level
invariant holds after the mutation; the local state carries no dependence on
the detached remote write's outcome. -/
theorem C2_updateUserPoints_points_and_level (points : Int) (s : AuthState)
    (u : UserRecord) (hu : s.user = some u) (hinv : levelInvariant u) :
    (updateUserPoints points s).1.user =
      some { u with
              points := u.points + points,
              level := (u.points + points).fdiv 100 + 1 } ∧
    ∀ u', (updateUserPoints points s).1.user = some u' → levelInvariant u' := by
  constructor
  · simp [updateUserPoints, hu]
  · intro u' h
    simp [updateUserPoints, hu] at h
    subst h
    rfl

/-- Witness for C2 at the spec's concrete scenario:
`updateUserPoints 120` on `{points: 250, level: 3}`. -/
theorem C2_witness :
    (updateUserPoints 120 sampleState).1.user =
      some { sampleUser with
              points := sampleUser.points + 120,
              level := (sampleUser.points + 120).fdiv 100 + 1 } ∧
    ∀ u', (updateUserPoints 120 sampleState).1.user = some u' →
      levelInvariant u' :=
  C2_updateUserPoints_points_and_level 120 sampleState sampleUser rfl
    (by decide)

/-- C9: for every integer delta, `updateUserPoints` on an absent `user` is a
no-op: the whole state (hence also `telegramUser` and `loading`) is unchanged
and no remote call is issued. -/
theorem C9_updateUserPoints_absent_noop (points : Int) (s : AuthState)
    (h : s.user = none) : updateUserPoints points s = (s, []) := by
  simp [updateUserPoints, h]

/-- Witness for C9 at the initial state. -/
theorem C9_witness : updateUserPoints 5 initialState = (initialState, []) :=
  C9_updateUserPoints_absent_noop 5 initialState rfl

/-- C10: for every resolved user and every integer delta, `updateUserPoints`
changes only the `points` and `level` fields of the local record — `id`,
`telegram_id`, `username`, `first_name`, `last_name` are preserved — and
leaves `telegramUser` and `loading` unchanged. -/
theorem C10_updateUserPoints_frame (points : Int) (s : AuthState)
    (u : UserRecord) (h : s.user = some u) :
    (∃ u', (updateUserPoints points s).1.user = some u' ∧
      u'.id = u.id ∧ u'.telegram_id = u.telegram_id ∧
      u'.username = u.username ∧ u'.first_name = u.first_name ∧
      u'.last_name = u.last_name) ∧
    (updateUserPoints points s).1.telegramUser = s.telegramUser ∧
    (updateUserPoints points s).1.loading = s.loading := by
  refine ⟨⟨{ u with
              points := u.points + points,
              level := (u.points + points).fdiv 100 + 1 }, ?_⟩, ?_, ?_⟩ <;>
    simp [updateUserPoints, h]

/-- Witness for C10 at a concrete resolved state. -/
theorem C10_witness :
    (∃ u', (updateUserPoints (-300) sampleState).1.user = some u' ∧
      u'.id = sampleUser.id ∧ u'.telegram_id = sampleUser.telegram_id ∧
      u'.username = sampleUser.username ∧
      u'.first_name = sampleUser.first_name ∧
      u'.last_name = sampleUser.last_name) ∧
    (updateUserPoints (-300) sampleState).1.telegramUser =
      sampleState.telegramUser ∧
    (updateUserPoints (-300) sampleState).1.loading = sampleState.loading :=
  C10_updateUserPoints_frame (-300) sampleState sampleUser rfl

/-- C7: `refreshUser` never mutates `telegramUser` or `loading`, in any state
and on any outcome of the remote fetch; and when `user` is absent it is a
complete no-op: the entire state is unchanged and no remote call is made. -/
theorem C7_refreshUser_frame (o : Bool) (s : AuthState) (db : Db) :
    ((refreshUser o s db).1.telegramUser = s.telegramUser ∧
     (refreshUser o s db).1.loading = s.loading) ∧
    (s.user = none → refreshUser o s db = (s, [])) := by
  cases h : s.user with
  | none => simp [refreshUser, h]
  | some u =>
      refine ⟨?_, by simp [h]⟩
      cases o with
      | true => simp [refreshUser, h]
      | false =>
          cases hl : dbLookupId db u.id <;> simp [refreshUser, h, hl]

/-- Witness for C7: applying the frame theorem at the initial (absent-user)
state discharges the no-op implication concretely. -/
theorem C7_witness : refreshUser true initialState emptyDb =
    (initialState, []) :=
  (C7_refreshUser_frame true initialState emptyDb).2 rfl

/-- C8: for a resolved user, a failing remote re-fetch is caught: the error
is logged and the prior `user` is unchanged; a successful re-fetch replaces
`user` wholesale by the fetched record. -/
theorem C8_refreshUser_failure_and_success (s : AuthState) (db : Db)
    (u : UserRecord) (h : s.user = some u) :
    ((refreshUser true s db).1.user = s.user ∧
     (refreshUser true s db).1.logs = s.logs ++ ["Error refreshing user:"]) ∧
    (∀ r, dbLookupId db u.id = some r →
      (refreshUser false s db).1.user = some r) := by
  refine ⟨⟨?_, ?_⟩, ?_⟩
  · simp [refreshUser, h]
  · simp [refreshUser, h]
  · intro r hr
    simp [refreshUser, h, hr]

/-- Witness for C8 at a concrete resolved state whose record is in the
backend. -/
theorem C8_witness :
    ((refreshUser true sampleState sampleDb).1.user = sampleState.user ∧
     (refreshUser true sampleState sampleDb).1.logs =
       sampleState.logs ++ ["Error refreshing user:"]) ∧
    (∀ r, dbLookupId sampleDb sampleUser.id = some r →
      (refreshUser false sampleState sampleDb).1.user = some r) :=
  C8_refreshUser_failure_and_success sampleState sampleDb sampleUser rfl

/-- C4: a failing remote lookup inside `fetchOrCreateUser` is caught — the
error is logged, the function returns normally with `user` and `loading` (and
everything else) unchanged and the backend untouched; likewise when the
lookup finds nothing and the create fails.  Nothing is surfaced beyond the
log entry. -/
theorem C4_fetchOrCreateUser_failure_contained (cf : Bool)
    (tgUser : HostIdentity) (s : AuthState) (db : Db) :
    fetchOrCreateUser true cf tgUser s db =
      ({ s with logs := s.logs ++ ["Error fetching/creating user:"] }, db,
        [RemoteCall.selectByTelegramId tgUser.id]) ∧
    (dbLookupTelegram db tgUser.id = none →
      fetchOrCreateUser false true tgUser s db =
        ({ s with logs := s.logs ++ ["Error fetching/creating user:"] }, db,
          [RemoteCall.selectByTelegramId tgUser.id,
           RemoteCall.insertUser tgUser.id])) := by
  refine ⟨?_, ?_⟩
  · simp [fetchOrCreateUser]
  · intro hnone
    simp [fetchOrCreateUser, hnone]

/-- Witness for C4 with the scenario identity against the empty backend. -/
theorem C4_witness :
    fetchOrCreateUser true false anaIdentity initialState emptyDb =
      ({ initialState with
          logs := initialState.logs ++ ["Error fetching/creating user:"] },
        emptyDb, [RemoteCall.selectByTelegramId anaIdentity.id]) ∧
    fetchOrCreateUser false true anaIdentity initialState emptyDb =
      ({ initialState with
          logs := initialState.logs ++ ["Error fetching/creating user:"] },
        emptyDb, [RemoteCall.selectByTelegramId anaIdentity.id,
                  RemoteCall.insertUser anaIdentity.id]) :=
  ⟨(C4_fetchOrCreateUser_failure_contained false anaIdentity initialState
      emptyDb).1,
   (C4_fetchOrCreateUser_failure_contained false anaIdentity initialState
      emptyDb).2 rfl⟩

/-- C5: when the host container is absent, initialization sets
`loading = false` and terminates with `user` and `telegramUser` still at
their initial absent values. -/
theorem C5_initializeAuth_no_host (env : HostEnv) (ff cf : Bool) (db : Db)
    (h : env.telegram = none) :
    (initializeAuth env ff cf initialState db).1.user = none ∧
    (initializeAuth env ff cf initialState db).1.telegramUser = none ∧
    (initializeAuth env ff cf initialState db).1.loading = false := by
  simp [initializeAuth, h, initialState]

/-- Witness for C5 at the concrete host-less environment. -/
theorem C5_witness :
    (initializeAuth noHostEnv false false initialState emptyDb).1.user =
      none ∧
    (initializeAuth noHostEnv false false initialState
      emptyDb).1.telegramUser = none ∧
    (initializeAuth noHostEnv false false initialState emptyDb).1.loading =
      false :=
  C5_initializeAuth_no_host noHostEnv false false emptyDb rfl

/-- C6: when the remote lookup by `telegram_id` finds an existing record, it
is adopted as `user` exactly as returned — no field is overwritten from the
host identity — and the backend row set is untouched (no create). -/
theorem C6_existing_record_adopted (tgUser : HostIdentity) (s : AuthState)
    (db : Db) (r : UserRecord)
    (h : dbLookupTelegram db tgUser.id = some r) :
    (fetchOrCreateUser false false tgUser s db).1.user = some r ∧
    (fetchOrCreateUser false false tgUser s db).2.1 = db ∧
    (fetchOrCreateUser false false tgUser s db).2.2 =
      [RemoteCall.selectByTelegramId tgUser.id] := by
  simp [fetchOrCreateUser, h]

/-- Witness for C6: the spec's scenario — the existing record
`{id: 7, telegram_id: 42, points: 250, level: 3}` adopted unchanged on login
with identity `{id: 42}`. -/
theorem C6_witness :
    (fetchOrCreateUser false false anaIdentity initialState
      sampleDb).1.user = some sampleUser ∧
    (fetchOrCreateUser false false anaIdentity initialState sampleDb).2.1 =
      sampleDb ∧
    (fetchOrCreateUser false false anaIdentity initialState sampleDb).2.2 =
      [RemoteCall.selectByTelegramId anaIdentity.id] :=
  C6_existing_record_adopted anaIdentity initialState sampleDb sampleUser
    (by decide)

/-- When the lookup by `telegram_id` finds a record, `fetchOrCreateUser`
adopts it and issues no insert. -/
theorem foc_found (tgUser : HostIdentity) (s : AuthState) (db : Db)
    (r : UserRecord) (h : dbLookupTelegram db tgUser.id = some r) :
    fetchOrCreateUser false false tgUser s db =
      ({ s with user := some r }, db,
        [RemoteCall.selectByTelegramId tgUser.id]) := by
  simp [fetchOrCreateUser, h]

/-- After a non-failing `fetchOrCreateUser`, looking the `telegram_id` up in
the resulting backend yields exactly the adopted user. -/
theorem dbLookupTelegram_after_foc (tgUser : HostIdentity) (s : AuthState)
    (db : Db) :
    dbLookupTelegram (fetchOrCreateUser false false tgUser s db).2.1
        tgUser.id =
      (fetchOrCreateUser false false tgUser s db).1.user := by
  cases h : dbLookupTelegram db tgUser.id with
  | some r => simp [fetchOrCreateUser, h]
  | none =>
      simp [fetchOrCreateUser, h, dbInsert]
      unfold dbLookupTelegram at h ⊢
      rw [find?_append_of_none _ _ _ h]
      simp [List.find?]

/-- C3: running the resolve-or-create flow twice with the same identity does
not create two records: every run issues the lookup before any create, the
second run leaves the backend unchanged and issues no insert, and it adopts
the same record (hence the same backend `id`) as the first run. -/
theorem C3_no_duplicate_create (tgUser : HostIdentity) (s0 s1 : AuthState)
    (db : Db) :
    (fetchOrCreateUser false false tgUser s0 db).2.2.head? =
      some (RemoteCall.selectByTelegramId tgUser.id) ∧
    (fetchOrCreateUser false false tgUser s1
        (fetchOrCreateUser false false tgUser s0 db).2.1).2.1 =
      (fetchOrCreateUser false false tgUser s0 db).2.1 ∧
    (fetchOrCreateUser false false tgUser s1
        (fetchOrCreateUser false false tgUser s0 db).2.1).2.2 =
      [RemoteCall.selectByTelegramId tgUser.id] ∧
    (fetchOrCreateUser false false tgUser s1
        (fetchOrCreateUser false false tgUser s0 db).2.1).1.user =
      (fetchOrCreateUser false false tgUser s0 db).1.user := by
  obtain ⟨r, hr⟩ :
      ∃ r, (fetchOrCreateUser false false tgUser s0 db).1.user = some r := by
    cases h : dbLookupTelegram db tgUser.id with
    | some r => exact ⟨r, by simp [fetchOrCreateUser, h]⟩
    | none =>
        exact ⟨(dbInsert db tgUser.id tgUser.username tgUser.first_name
          tgUser.last_name).1, by simp [fetchOrCreateUser, h]⟩
  have hpost := dbLookupTelegram_after_foc tgUser s0 db
  rw [hr] at hpost
  have h2 := foc_found tgUser s1
    (fetchOrCreateUser false false tgUser s0 db).2.1 r hpost
  refine ⟨?_, ?_, ?_, ?_⟩
  · cases h : dbLookupTelegram db tgUser.id <;> simp [fetchOrCreateUser, h]
  · rw [h2]
  · rw [h2]
  · rw [h2]; exact hr.symm

/-- C1 (evidence of the divergence): at the spec's own scenario — identity
`{id: 42, first_name: "Ana"}`, empty backend, initial state — initialization
does create and adopt exactly the claimed record
`{telegram_id: 42, first_name: "Ana", points: 0, level: 1}` with the
backend-assigned `id`, but `loading` is still `true` afterwards: the source
never calls `setLoading(false)` on the successful identity path, refuting the
claimed `loading = false`. -/
theorem C1_scenario_loading_stays_true :
    (initializeAuth anaEnv false false initialState emptyDb).1.user =
      some { id := 1, telegram_id := 42, username := none,
             first_name := some "Ana", last_name := none, points := 0,
             level := 1 } ∧
    (initializeAuth anaEnv false false initialState emptyDb).1.telegramUser =
      some anaIdentity ∧
    (initializeAuth anaEnv false false initialState emptyDb).1.loading =
      true := by
  decide
